import Mathlib

/-!
Shallow embedding of the moderation core of src/bot.py (GroupManager).

The persistent state relevant to moderation is the sqlite users table,
keyed by (user_id, group_id), holding a role string and a warning count.
We model it as an association list. Command handlers are embedded as pure
functions from the state (plus the inputs the handler reads: parsed
arguments, the Telegram chat-member status returned by get_chat_member,
and the outcomes of external platform calls) to the new state and a
result describing the reply sent.

Timestamps are modelled as integers (seconds); a duration of m minutes
contributes m * 60.
-/

set_option autoImplicit false

namespace GyfBot

/-- Row of the users table: the moderation-relevant columns. -/
structure UserRow where
  role : String
  warnings : Nat
  deriving DecidableEq

/-- The users table, keyed by (user_id, group_id). -/
abbrev DB := List ((Int × Int) × UserRow)

/-- SELECT ... FROM users WHERE user_id=? AND group_id=? (first matching row). -/
def dbGet : DB → Int → Int → Option UserRow
  | [], _, _ => none
  | (k, v) :: rest, uid, gid =>
      if k = (uid, gid) then some v else dbGet rest uid gid

/-- UPDATE users SET role=? WHERE user_id=? AND group_id=? (no-op when absent). -/
def dbSetRole : DB → Int → Int → String → DB
  | [], _, _, _ => []
  | (k, v) :: rest, uid, gid, r =>
      (k, if k = (uid, gid) then { v with role := r } else v) :: dbSetRole rest uid gid r

/-- UPDATE users SET warnings = warnings + 1 WHERE user_id=? AND group_id=? (no-op when absent). -/
def dbIncWarn : DB → Int → Int → DB
  | [], _, _ => []
  | (k, v) :: rest, uid, gid =>
      (k, if k = (uid, gid) then { v with warnings := v.warnings + 1 } else v) :: dbIncWarn rest uid gid

/-- Models the Python str.lower call on role strings: characterwise ASCII
lowercasing (which covers every role name the code compares against). -/
def pyLower (s : String) : String := ⟨s.data.map Char.toLower⟩

/-- Embeds get_role_priority (bot.py lines 117 to 128): a dict lookup on
role.lower() with default 1. -/
def get_role_priority (role : String) : Int :=
  if pyLower role = "owner" then 4
  else if pyLower role = "creator" then 4
  else if pyLower role = "superadmin" then 3
  else if pyLower role = "administrator" then 3
  else if pyLower role = "admin" then 3
  else if pyLower role = "moderator" then 2
  else if pyLower role = "member" then 1
  else if pyLower role = "restricted" then 0
  else 1

/-- Key list of the role_map dict in get_role_priority. -/
def role_priority_keys : List String :=
  ["owner", "creator", "superadmin", "administrator", "admin", "moderator", "member", "restricted"]

/-- Embeds GroupManager.check_admin (bot.py lines 170 to 184): the Telegram
chat-member status is fetched from the platform; none models the API call
raising (the handler then returns False). True exactly when the status is
"administrator" or "creator". The stored DB role is never consulted. -/
def check_admin (platformStatus : Option String) : Bool :=
  match platformStatus with
  | some s => s = "administrator" || s = "creator"
  | none => false

/-- Embeds GroupManager.get_user_role (bot.py lines 186 to 202): the stored
role when a row exists, otherwise the platform status, otherwise "member"
when the platform call raises. -/
def get_user_role (db : DB) (gid uid : Int) (platformStatus : Option String) : String :=
  match dbGet db uid gid with
  | some row => row.role
  | none => platformStatus.getD "member"

/-! ### Command handlers -/

/-- Result of /promote after argument parsing. -/
inductive PromoteResult
  | notAdmin
  | invalidRole
  | rankDenied
  | promoted (newRole : String)
  deriving DecidableEq

/-- The valid_roles list of cmd_promote (bot.py line 701). -/
def valid_roles : List String := ["owner", "administrator", "admin", "moderator", "member"]

/-- Embeds GroupManager.cmd_promote (bot.py lines 688 to 720): admin gate via
check_admin, role-name validation, rank check comparing the requested role
priority against the priority of the role resolved by get_user_role, then
UPDATE of the target row. -/
def cmd_promote (db : DB) (gid actorId : Int) (actorStatus : Option String)
    (targetId : Int) (roleArg : String) : DB × PromoteResult :=
  if check_admin actorStatus = false then (db, .notAdmin)
  else
    let new_role := (pyLower roleArg)
    if valid_roles.contains new_role = false then (db, .invalidRole)
    else
      let current_user_role := get_user_role db gid actorId actorStatus
      if get_role_priority new_role ≥ get_role_priority current_user_role then (db, .rankDenied)
      else (dbSetRole db targetId gid new_role, .promoted new_role)

/-- Result of /demote after argument parsing. -/
inductive DemoteResult
  | notAdmin
  | userNotFound
  | rankDenied
  | demoted (newRole : String)
  deriving DecidableEq

/-- Embeds the for/else loop of cmd_demote (bot.py lines 759 to 764) that
finds the role name with the given priority in
[(owner,4), (administrator,3), (moderator,2), (member,1)], defaulting
to "member". -/
def demote_role_of_priority (p : Int) : String :=
  if p = 4 then "owner"
  else if p = 3 then "administrator"
  else if p = 2 then "moderator"
  else if p = 1 then "member"
  else "member"

/-- Embeds GroupManager.cmd_demote (bot.py lines 722 to 771): admin gate,
actor role via get_user_role, target row lookup, rank check, then one
priority step down with the for/else role search. -/
def cmd_demote (db : DB) (gid actorId : Int) (actorStatus : Option String)
    (targetId : Int) : DB × DemoteResult :=
  if check_admin actorStatus = false then (db, .notAdmin)
  else
    let current_user_role := get_user_role db gid actorId actorStatus
    match dbGet db targetId gid with
    | none => (db, .userNotFound)
    | some row =>
      if get_role_priority row.role ≥ get_role_priority current_user_role then (db, .rankDenied)
      else
        let new_role := demote_role_of_priority (get_role_priority row.role - 1)
        (dbSetRole db targetId gid new_role, .demoted new_role)

/-- Result of /warn after argument parsing: the reported post-increment count,
whether the auto-ban was attempted (count at least 3), and whether the external
ban call succeeded. -/
inductive WarnResult
  | notAdmin
  | notInDb
  | warned (count : Nat) (autoBanAttempted : Bool) (autoBanOk : Bool)
  deriving DecidableEq

/-- Embeds GroupManager.cmd_warn (bot.py lines 390 to 432): admin gate, an
UPDATE incrementing warnings (a silent no-op when the row is absent), a
commit, a re-SELECT of the count, then the auto-ban attempt when the count
is at least 3. banOk is the outcome of the external ban_chat_member call;
its failure is caught and only logged. -/
def cmd_warn (db : DB) (gid actorId : Int) (actorStatus : Option String)
    (targetId : Int) (banOk : Bool) : DB × WarnResult :=
  if check_admin actorStatus = false then (db, .notAdmin)
  else
    let db1 := dbIncWarn db targetId gid
    match dbGet db1 targetId gid with
    | none => (db1, .notInDb)
    | some row =>
      if row.warnings ≥ 3 then (db1, .warned row.warnings true banOk)
      else (db1, .warned row.warnings false false)

/-- Modelled from the spec: the UserMute records of section 4.5
(RestrictionScheduler), keyed by (user_id, group_id) with an expiry
timestamp. The sqlite schema of bot.py has no table of mute records and no
handler writes one; this type exists so that the isMuted query of the spec
can be stated against the local state the code actually keeps. -/
abbrev MuteStore := List ((Int × Int) × Int)

/-- Lookup of the expiry of a UserMute record. -/
def muteGet : MuteStore → Int → Int → Option Int
  | [], _, _ => none
  | (k, e) :: rest, uid, gid =>
      if k = (uid, gid) then some e else muteGet rest uid gid

/-- Modelled from the spec: isMuted(group, user, now) of section 4.5 — true
iff a UserMute record exists and now is before its expiry. Missing from the
source: bot.py never stores mute records, so this query is evaluated over
the (never written) local MuteStore. -/
def isMuted (mutes : MuteStore) (uid gid now : Int) : Bool :=
  match muteGet mutes uid gid with
  | some expiresAt => decide (now < expiresAt)
  | none => false

/-- Result of /mute after argument parsing: the until_date passed to the
external restrict_chat_member call and whether that call succeeded. -/
inductive MuteOutcome
  | notAdmin
  | attempted (untilDate : Int) (externalOk : Bool)
  deriving DecidableEq

/-- Embeds GroupManager.cmd_mute (bot.py lines 335 to 359): admin gate,
minutes argument defaulting to 10 with no validation, until_date computed
as now plus the minutes, then the external restrict_chat_member call whose
failure is caught and reported. The handler performs no database write; the
users table and the (spec-level) mute store are threaded through unchanged. -/
def cmd_mute (db : DB) (mutes : MuteStore) (gid actorId : Int) (actorStatus : Option String)
    (targetId : Int) (minutesArg : Option Int) (now : Int) (externalOk : Bool) :
    DB × MuteStore × MuteOutcome :=
  if check_admin actorStatus = false then (db, mutes, .notAdmin)
  else
    let mute_minutes := minutesArg.getD 10
    let until_date := now + mute_minutes * 60
    (db, mutes, .attempted until_date externalOk)

/-- Result of a moderation command whose action is purely an external
platform call (/ban, /unban, /lockdown). -/
inductive ExtOutcome
  | notAdmin
  | attempted (externalOk : Bool)
  deriving DecidableEq

/-- Embeds GroupManager.cmd_ban (bot.py lines 291 to 312): admin gate, then
the external ban_chat_member call; no local state is touched. -/
def cmd_ban (db : DB) (actorStatus : Option String) (externalOk : Bool) :
    DB × ExtOutcome :=
  if check_admin actorStatus = false then (db, .notAdmin)
  else (db, .attempted externalOk)

/-- Embeds GroupManager.cmd_unban (bot.py lines 314 to 333): admin gate, then
the external unban_chat_member call; no local state is touched. -/
def cmd_unban (db : DB) (actorStatus : Option String) (externalOk : Bool) :
    DB × ExtOutcome :=
  if check_admin actorStatus = false then (db, .notAdmin)
  else (db, .attempted externalOk)

/-- Embeds GroupManager.cmd_unmute (bot.py lines 361 to 388): admin gate,
then the external restrict_chat_member call restoring the send permissions,
whose failure is caught and reported; no local state is touched, so the
users table and the (spec-level) mute store pass through unchanged. -/
def cmd_unmute (db : DB) (mutes : MuteStore) (actorStatus : Option String)
    (externalOk : Bool) : DB × MuteStore × ExtOutcome :=
  if check_admin actorStatus = false then (db, mutes, .notAdmin)
  else (db, mutes, .attempted externalOk)

/-- Embeds GroupManager.cmd_lockdown (bot.py lines 773 to 816): admin gate,
then the external set_chat_permissions call; no local state is touched. -/
def cmd_lockdown (db : DB) (actorStatus : Option String) (externalOk : Bool) :
    DB × ExtOutcome :=
  if check_admin actorStatus = false then (db, .notAdmin)
  else (db, .attempted externalOk)

/-! ### Sequential warnings -/

/-- State after n sequential /warn calls on the same target. -/
def warnSeq (db : DB) (gid actorId : Int) (actorStatus : Option String)
    (targetId : Int) (banOk : Bool) : Nat → DB
  | 0 => db
  | n + 1 => (cmd_warn (warnSeq db gid actorId actorStatus targetId banOk n)
      gid actorId actorStatus targetId banOk).1

/-- Result of the k-th sequential /warn call (k counted from 1). -/
def warnResultAt (db : DB) (gid actorId : Int) (actorStatus : Option String)
    (targetId : Int) (banOk : Bool) (k : Nat) : WarnResult :=
  (cmd_warn (warnSeq db gid actorId actorStatus targetId banOk (k - 1))
    gid actorId actorStatus targetId banOk).2

/-- Whether a warn result carried the escalation (auto-ban attempted) flag. -/
def escalatedAt : WarnResult → Bool
  | .warned _ esc _ => esc
  | _ => false

/-- The count reported by a warn result. -/
def warnCount : WarnResult → Option Nat
  | .warned c _ _ => some c
  | _ => none

/-! ### Sample states used by concrete instances -/

/-- Users table holding actor 100 with stored role "owner" and target 200
with stored role "member", both in group 1. -/
def sampleDb : DB := [((100, 1), ⟨"owner", 0⟩), ((200, 1), ⟨"member", 0⟩)]

/-- Users table for the 25-case promote table: actor 100 with stored role a,
target 200 with stored role t, group 1. -/
def dbPair (a t : String) : DB := [((100, 1), ⟨a, 0⟩), ((200, 1), ⟨t, 0⟩)]

/-- Users table holding actor 100 with stored role "moderator" and target 200
with stored role "restricted" and two warnings, group 1. -/
def dbDemote : DB := [((100, 1), ⟨"moderator", 0⟩), ((200, 1), ⟨"restricted", 2⟩)]

/-- Users table holding only target 200 with stored role "member" and two
warnings, group 1. -/
def dbWarned : DB := [((200, 1), ⟨"member", 2⟩)]

/-- The five role names of the glossary. -/
def roles5 : List String := ["owner", "administrator", "moderator", "member", "restricted"]

/-- Following the words of the claim C4 table as amended: starting from
dbPair a "member", a requested role of restricted is rejected as an invalid
role name with no change; otherwise the promotion is denied exactly when the
requested priority is greater than or equal to the actor priority, and when
allowed the target stored role becomes the requested role. -/
def promoteTableSpec (a r : String) : DB × PromoteResult :=
  if r = "restricted" then (dbPair a "member", PromoteResult.invalidRole)
  else if get_role_priority r ≥ get_role_priority a then (dbPair a "member", PromoteResult.rankDenied)
  else (dbPair a r, PromoteResult.promoted r)

/-! ### Association-list lemmas -/

theorem dbGet_dbSetRole_self (db : DB) (uid gid : Int) (r : String) :
    dbGet (dbSetRole db uid gid r) uid gid
      = (dbGet db uid gid).map (fun v => { v with role := r }) := by
  induction db with
  | nil => rfl
  | cons hd tl ih =>
      obtain ⟨k, v⟩ := hd
      by_cases h : k = (uid, gid) <;> simp [dbGet, dbSetRole, h, ih]

theorem dbGet_dbIncWarn_self (db : DB) (uid gid : Int) :
    dbGet (dbIncWarn db uid gid) uid gid
      = (dbGet db uid gid).map (fun v => { v with warnings := v.warnings + 1 }) := by
  induction db with
  | nil => rfl
  | cons hd tl ih =>
      obtain ⟨k, v⟩ := hd
      by_cases h : k = (uid, gid) <;> simp [dbGet, dbIncWarn, h, ih]

theorem dbGet_dbIncWarn_other (db : DB) (uid gid uid2 gid2 : Int)
    (h : (uid2, gid2) ≠ (uid, gid)) :
    dbGet (dbIncWarn db uid gid) uid2 gid2 = dbGet db uid2 gid2 := by
  induction db with
  | nil => rfl
  | cons hd tl ih =>
      obtain ⟨k, v⟩ := hd
      simp only [dbGet, dbIncWarn]
      by_cases hk : k = (uid2, gid2)
      · rw [hk]
        simp [h]
      · simp [hk, ih]

theorem dbIncWarn_of_get_none (db : DB) (uid gid : Int)
    (h : dbGet db uid gid = none) : dbIncWarn db uid gid = db := by
  induction db with
  | nil => rfl
  | cons hd tl ih =>
      obtain ⟨k, v⟩ := hd
      by_cases hk : k = (uid, gid)
      · simp [dbGet, hk] at h
      · simp [dbGet, hk] at h
        simp [dbIncWarn, hk, ih h]

/-! ### Characterizations of the handlers under a passing admin gate -/

theorem cmd_warn_of_admin (db : DB) (gid aid tid : Int) (st : Option String)
    (banOk : Bool) (hadmin : check_admin st = true) :
    cmd_warn db gid aid st tid banOk =
      (dbIncWarn db tid gid,
        match dbGet (dbIncWarn db tid gid) tid gid with
        | none => WarnResult.notInDb
        | some row =>
            if row.warnings ≥ 3 then WarnResult.warned row.warnings true banOk
            else WarnResult.warned row.warnings false false) := by
  unfold cmd_warn
  rw [hadmin]
  simp only [Bool.true_eq_false, if_false]
  cases h : dbGet (dbIncWarn db tid gid) tid gid
  · simp
  · simp only []
    split <;> simp

theorem cmd_promote_of_admin (db : DB) (gid aid tid : Int) (st : Option String)
    (roleArg : String) (hadmin : check_admin st = true)
    (hvalid : valid_roles.contains (pyLower roleArg) = true) :
    cmd_promote db gid aid st tid roleArg =
      if get_role_priority (pyLower roleArg)
          ≥ get_role_priority (get_user_role db gid aid st)
      then (db, PromoteResult.rankDenied)
      else (dbSetRole db tid gid (pyLower roleArg), PromoteResult.promoted (pyLower roleArg)) := by
  unfold cmd_promote
  simp only [hadmin, hvalid, Bool.true_eq_false, if_false]

/-! ### Privilege-gate lemmas: every handler denies exactly when check_admin fails -/

theorem cmd_promote_gate (db : DB) (gid aid tid : Int) (st : Option String) (roleArg : String) :
    (cmd_promote db gid aid st tid roleArg).2 = PromoteResult.notAdmin
      ↔ check_admin st = false := by
  unfold cmd_promote
  cases hc : check_admin st
  · simp
  · simp only [Bool.true_eq_false, if_false, iff_false]
    split <;> (try split) <;> simp

theorem cmd_demote_gate (db : DB) (gid aid tid : Int) (st : Option String) :
    (cmd_demote db gid aid st tid).2 = DemoteResult.notAdmin
      ↔ check_admin st = false := by
  unfold cmd_demote
  cases hc : check_admin st
  · simp
  · simp only [Bool.true_eq_false, if_false, iff_false]
    split <;> (try split) <;> simp

theorem cmd_warn_gate (db : DB) (gid aid tid : Int) (st : Option String) (banOk : Bool) :
    (cmd_warn db gid aid st tid banOk).2 = WarnResult.notAdmin
      ↔ check_admin st = false := by
  unfold cmd_warn
  cases hc : check_admin st
  · simp
  · simp only [Bool.true_eq_false, if_false, iff_false]
    split <;> (try split) <;> simp

theorem cmd_mute_gate (db : DB) (mutes : MuteStore) (gid aid tid : Int)
    (st : Option String) (minutesArg : Option Int) (now : Int) (externalOk : Bool) :
    (cmd_mute db mutes gid aid st tid minutesArg now externalOk).2.2 = MuteOutcome.notAdmin
      ↔ check_admin st = false := by
  unfold cmd_mute
  cases hc : check_admin st <;> simp

theorem cmd_ban_gate (db : DB) (st : Option String) (externalOk : Bool) :
    (cmd_ban db st externalOk).2 = ExtOutcome.notAdmin ↔ check_admin st = false := by
  unfold cmd_ban
  cases hc : check_admin st <;> simp

theorem cmd_unban_gate (db : DB) (st : Option String) (externalOk : Bool) :
    (cmd_unban db st externalOk).2 = ExtOutcome.notAdmin ↔ check_admin st = false := by
  unfold cmd_unban
  cases hc : check_admin st <;> simp

theorem cmd_unmute_gate (db : DB) (mutes : MuteStore) (st : Option String)
    (externalOk : Bool) :
    (cmd_unmute db mutes st externalOk).2.2 = ExtOutcome.notAdmin
      ↔ check_admin st = false := by
  unfold cmd_unmute
  cases hc : check_admin st <;> simp

theorem cmd_lockdown_gate (db : DB) (st : Option String) (externalOk : Bool) :
    (cmd_lockdown db st externalOk).2 = ExtOutcome.notAdmin ↔ check_admin st = false := by
  unfold cmd_lockdown
  cases hc : check_admin st <;> simp

theorem check_admin_iff (st : Option String) :
    check_admin st = true ↔ st = some "administrator" ∨ st = some "creator" := by
  cases st <;> simp [check_admin]

/-! ### Claim C3 -/

/-- C3 (counterexample): the claim says the administrative-privilege decision
is made on the stored role, so an actor whose stored role is "owner"
(priority 4, at least the administrator priority 3) must pass the privilege
check. In the code check_admin only looks at the platform chat-member status:
with stored role "owner" but platform status "member", warn and promote are
denied at the privilege gate. -/
theorem C3_counterexample :
    get_role_priority (get_user_role sampleDb 1 100 (some "member"))
        ≥ get_role_priority "administrator"
    ∧ (cmd_warn sampleDb 1 100 (some "member") 200 true).2 = WarnResult.notAdmin
    ∧ (cmd_promote sampleDb 1 100 (some "member") 200 "moderator").2
        = PromoteResult.notAdmin := by
  decide

/-- C3 (amended): for every exposed moderation operation the
administrative-privilege decision is made by check_admin on the
platform-resolved chat-member status alone, independent of any stored role:
the operation is denied at the privilege gate exactly when check_admin fails,
and check_admin passes exactly when the platform status is "administrator" or
"creator" (and fails when the platform lookup itself fails). -/
theorem C3_theorem (db : DB) (mutes : MuteStore) (gid aid tid : Int)
    (st : Option String) (roleArg : String) (minutesArg : Option Int)
    (now : Int) (banOk extOk : Bool) :
    ((cmd_promote db gid aid st tid roleArg).2 = PromoteResult.notAdmin
      ↔ check_admin st = false)
    ∧ ((cmd_demote db gid aid st tid).2 = DemoteResult.notAdmin
      ↔ check_admin st = false)
    ∧ ((cmd_warn db gid aid st tid banOk).2 = WarnResult.notAdmin
      ↔ check_admin st = false)
    ∧ ((cmd_mute db mutes gid aid st tid minutesArg now extOk).2.2 = MuteOutcome.notAdmin
      ↔ check_admin st = false)
    ∧ ((cmd_unmute db mutes st extOk).2.2 = ExtOutcome.notAdmin ↔ check_admin st = false)
    ∧ ((cmd_ban db st extOk).2 = ExtOutcome.notAdmin ↔ check_admin st = false)
    ∧ ((cmd_unban db st extOk).2 = ExtOutcome.notAdmin ↔ check_admin st = false)
    ∧ ((cmd_lockdown db st extOk).2 = ExtOutcome.notAdmin ↔ check_admin st = false)
    ∧ (check_admin st = true ↔ st = some "administrator" ∨ st = some "creator") :=
  ⟨cmd_promote_gate db gid aid tid st roleArg,
   cmd_demote_gate db gid aid tid st,
   cmd_warn_gate db gid aid tid st banOk,
   cmd_mute_gate db mutes gid aid tid st minutesArg now extOk,
   cmd_unmute_gate db mutes st extOk,
   cmd_ban_gate db st extOk,
   cmd_unban_gate db st extOk,
   cmd_lockdown_gate db st extOk,
   check_admin_iff st⟩

/-! ### Claim C9 -/

/-- C9 (counterexample): the claim says every string other than the eight
listed lowercase role names maps to 1, but matching is case-insensitive:
the string OWNER, which is not among the listed names, maps to 4. -/
theorem C9_counterexample :
    get_role_priority "OWNER" = 4 ∧ ¬ get_role_priority "OWNER" = 1 := by
  decide

/-- C9 (amended): get_role_priority is pure and total and matches role names
case-insensitively: owner and creator map to 4, administrator, admin and
superadmin to 3, moderator to 2, member to 1, restricted to 0, and every
string whose lowercasing is none of the eight keys maps to 1; it is always
nonnegative and the five canonical roles are strictly ordered. -/
theorem C9_theorem :
    (∀ r : String, 0 ≤ get_role_priority r)
    ∧ (∀ r : String, pyLower r ∉ role_priority_keys → get_role_priority r = 1)
    ∧ (get_role_priority "owner" = 4 ∧ get_role_priority "creator" = 4
      ∧ get_role_priority "administrator" = 3 ∧ get_role_priority "admin" = 3
      ∧ get_role_priority "superadmin" = 3 ∧ get_role_priority "moderator" = 2
      ∧ get_role_priority "member" = 1 ∧ get_role_priority "restricted" = 0)
    ∧ (get_role_priority "owner" > get_role_priority "administrator"
      ∧ get_role_priority "administrator" > get_role_priority "moderator"
      ∧ get_role_priority "moderator" > get_role_priority "member"
      ∧ get_role_priority "member" > get_role_priority "restricted") := by
  refine ⟨?_, ?_, by decide, by decide⟩
  · intro r
    unfold get_role_priority
    split_ifs <;> norm_num
  · intro r h
    unfold get_role_priority
    split_ifs with h1 h2 h3 h4 h5 h6 h7 h8
    · exact absurd (by rw [h1]; decide) h
    · exact absurd (by rw [h2]; decide) h
    · exact absurd (by rw [h3]; decide) h
    · exact absurd (by rw [h4]; decide) h
    · exact absurd (by rw [h5]; decide) h
    · exact absurd (by rw [h6]; decide) h
    · exact absurd (by rw [h7]; decide) h
    · exact absurd (by rw [h8]; decide) h
    · rfl

/-- C9 (witness): the amended fallback clause applied to a concrete
unrecognized string. -/
theorem C9_witness : get_role_priority "gibberish" = 1 :=
  C9_theorem.2.1 "gibberish" (by decide)

/-! ### Claim C5 -/

/-- C5 (counterexample): after a mute by an admin with duration 10 that the
external platform accepts, the claim says isMuted is immediately true. The
handler stores no local mute record, so isMuted over the local records is
false, whether the external call succeeds or fails. -/
theorem C5_counterexample :
    (cmd_mute sampleDb [] 1 100 (some "administrator") 200 (some 10) 1000 true).2.2
      = MuteOutcome.attempted 1600 true
    ∧ isMuted (cmd_mute sampleDb [] 1 100 (some "administrator") 200 (some 10) 1000 true).2.1
        200 1 1000 = false
    ∧ isMuted (cmd_mute sampleDb [] 1 100 (some "administrator") 200 (some 10) 1000 false).2.1
        200 1 1000 = false := by
  decide

/-- C5 (amended): the mute handler touches no local state at all: the users
table and the mute records are returned unchanged whether the external
restriction call succeeds or fails, so the isMuted query over the local
records is unaffected by the operation (there is no local mute record to
leave in place or to roll back). -/
theorem C5_theorem (db : DB) (mutes : MuteStore) (gid aid tid : Int)
    (st : Option String) (minutesArg : Option Int) (now t : Int) (externalOk : Bool) :
    (cmd_mute db mutes gid aid st tid minutesArg now externalOk).1 = db
    ∧ (cmd_mute db mutes gid aid st tid minutesArg now externalOk).2.1 = mutes
    ∧ isMuted (cmd_mute db mutes gid aid st tid minutesArg now externalOk).2.1 tid gid t
        = isMuted mutes tid gid t := by
  unfold cmd_mute
  split <;> simp

/-! ### Claim C8 -/

/-- C8 (counterexample): the claim says a non-positive duration fails with
InvalidArgument and a positive duration stores a UserMute record. The handler
accepts duration -5, issuing the external restriction with an until_date in
the past and reporting success, and stores no mute record even for the
positive duration 10. -/
theorem C8_counterexample :
    cmd_mute sampleDb [] 1 100 (some "administrator") 200 (some (-5)) 1000 true
      = (sampleDb, [], MuteOutcome.attempted (1000 + (-5) * 60) true)
    ∧ (cmd_mute sampleDb [] 1 100 (some "administrator") 200 (some 10) 1000 true).2.1
        = ([] : MuteStore) := by
  decide

/-- C8 (amended): the mute handler performs no validation of the duration:
for every integer duration m (and the default 10 when the argument is
absent), an actor passing the admin gate causes exactly the external
restriction call with until_date now plus m minutes, with the external
outcome reported; no local mute record is stored for any duration. -/
theorem C8_theorem (db : DB) (mutes : MuteStore) (gid aid tid : Int)
    (st : Option String) (m now : Int) (externalOk : Bool)
    (hadmin : check_admin st = true) :
    cmd_mute db mutes gid aid st tid (some m) now externalOk
        = (db, mutes, MuteOutcome.attempted (now + m * 60) externalOk)
    ∧ cmd_mute db mutes gid aid st tid none now externalOk
        = (db, mutes, MuteOutcome.attempted (now + 10 * 60) externalOk) := by
  unfold cmd_mute
  rw [hadmin]
  simp

/-- C8 (witness): the amended statement applied at duration -5 and at the
absent-argument default. -/
theorem C8_witness :
    cmd_mute sampleDb [] 1 100 (some "creator") 200 (some (-5)) 1000 true
      = (sampleDb, ([] : MuteStore), MuteOutcome.attempted (1000 + (-5) * 60) true)
    ∧ cmd_mute sampleDb [] 1 100 (some "creator") 200 none 1000 true
      = (sampleDb, ([] : MuteStore), MuteOutcome.attempted (1000 + 10 * 60) true) :=
  C8_theorem sampleDb [] 1 100 200 (some "creator") (-5) 1000 true (by decide)

/-! ### Further characterizations -/

theorem cmd_warn_fst (db : DB) (gid aid tid : Int) (st : Option String) (banOk : Bool)
    (hadmin : check_admin st = true) :
    (cmd_warn db gid aid st tid banOk).1 = dbIncWarn db tid gid := by
  rw [cmd_warn_of_admin db gid aid tid st banOk hadmin]

theorem cmd_warn_snd_of_get (db : DB) (gid aid tid : Int) (st : Option String)
    (banOk : Bool) (r : String) (w : Nat) (hadmin : check_admin st = true)
    (hget : dbGet (dbIncWarn db tid gid) tid gid = some ⟨r, w⟩) :
    (cmd_warn db gid aid st tid banOk).2 =
      if w ≥ 3 then WarnResult.warned w true banOk else WarnResult.warned w false false := by
  rw [cmd_warn_of_admin db gid aid tid st banOk hadmin, hget]

theorem cmd_demote_of_admin (db : DB) (gid aid tid : Int) (st : Option String)
    (row : UserRow) (hadmin : check_admin st = true)
    (hrow : dbGet db tid gid = some row) :
    cmd_demote db gid aid st tid =
      if get_role_priority row.role ≥ get_role_priority (get_user_role db gid aid st)
      then (db, DemoteResult.rankDenied)
      else (dbSetRole db tid gid (demote_role_of_priority (get_role_priority row.role - 1)),
        DemoteResult.demoted (demote_role_of_priority (get_role_priority row.role - 1))) := by
  unfold cmd_demote
  rw [hadmin, hrow]
  simp only [Bool.true_eq_false, if_false]

/-! ### Claim C1 -/

/-- C1 (counterexample): an actor whose resolved role is owner attempting to
promote the target to owner is, per the claim, allowed; in the code the rank
check denies whenever the requested priority is greater than or equal to the
actor priority, so the owner actor is denied and the target row is
unchanged. -/
theorem C1_counterexample :
    get_user_role sampleDb 1 100 (some "creator") = "owner"
    ∧ cmd_promote sampleDb 1 100 (some "creator") 200 "owner"
        = (sampleDb, PromoteResult.rankDenied) := by
  decide

/-- C1 (amended): with the admin gate passing, an actor resolving to
administrator is denied the promotion of the target to owner (rank
conflict), an actor resolving to owner is likewise denied promotion to
owner, and an actor resolving to owner promoting to administrator is
allowed, the target row changing to role administrator. -/
theorem C1_theorem (db : DB) (gid aid tid : Int) (st : Option String)
    (hadmin : check_admin st = true) :
    (get_user_role db gid aid st = "administrator" →
      cmd_promote db gid aid st tid "owner" = (db, PromoteResult.rankDenied))
    ∧ (get_user_role db gid aid st = "owner" →
      cmd_promote db gid aid st tid "owner" = (db, PromoteResult.rankDenied))
    ∧ (∀ row : UserRow, get_user_role db gid aid st = "owner" →
        dbGet db tid gid = some row →
        (cmd_promote db gid aid st tid "administrator").2
            = PromoteResult.promoted "administrator"
        ∧ dbGet (cmd_promote db gid aid st tid "administrator").1 tid gid
            = some ⟨"administrator", row.warnings⟩) := by
  refine ⟨?_, ?_, ?_⟩
  · intro h
    rw [cmd_promote_of_admin db gid aid tid st "owner" hadmin (by decide)]
    rw [if_pos (by rw [h]; decide)]
  · intro h
    rw [cmd_promote_of_admin db gid aid tid st "owner" hadmin (by decide)]
    rw [if_pos (by rw [h]; decide)]
  · intro row h hrow
    rw [cmd_promote_of_admin db gid aid tid st "administrator" hadmin (by decide)]
    rw [if_neg (by rw [h]; decide)]
    refine ⟨rfl, ?_⟩
    have hl : pyLower "administrator" = "administrator" := by decide
    rw [hl, dbGet_dbSetRole_self, hrow]
    rfl

/-- C1 (witness): the amended statement at a concrete state where actor 100
resolves to owner. -/
theorem C1_witness :
    cmd_promote sampleDb 1 100 (some "creator") 200 "owner"
        = (sampleDb, PromoteResult.rankDenied)
    ∧ (cmd_promote sampleDb 1 100 (some "creator") 200 "administrator").2
        = PromoteResult.promoted "administrator"
    ∧ dbGet (cmd_promote sampleDb 1 100 (some "creator") 200 "administrator").1 200 1
        = some ⟨"administrator", 0⟩ :=
  ⟨(C1_theorem sampleDb 1 100 200 (some "creator") (by decide)).2.1 (by decide),
   ((C1_theorem sampleDb 1 100 200 (some "creator") (by decide)).2.2
      ⟨"member", 0⟩ (by decide) (by decide)).1,
   ((C1_theorem sampleDb 1 100 200 (some "creator") (by decide)).2.2
      ⟨"member", 0⟩ (by decide) (by decide)).2⟩

/-! ### Claim C4 -/

/-- C4 (counterexample): for the pair (actor owner, requested restricted) the
claim predicts the promotion is allowed, since the requested priority 0 is
strictly below the actor priority 4; the code rejects restricted as an
invalid role name before any rank check and changes nothing. -/
theorem C4_counterexample :
    get_role_priority "restricted" < get_role_priority "owner"
    ∧ cmd_promote (dbPair "owner" "member") 1 100 (some "creator") 200 "restricted"
        = (dbPair "owner" "member", PromoteResult.invalidRole) := by
  decide

/-- C4 (amended): over all 25 pairs of the five glossary roles, a requested
role of restricted is rejected as an invalid role name regardless of the
actor; for the other requested roles the promotion is denied exactly when
the requested priority is greater than or equal to the actor priority, and
when allowed the target row changes to the requested role. -/
theorem C4_theorem :
    ∀ a ∈ roles5, ∀ r ∈ roles5,
      cmd_promote (dbPair a "member") 1 100 (some "administrator") 200 r
        = promoteTableSpec a r := by
  decide

/-- C4 (witness): the allowed branch of the amended table at actor owner and
requested role moderator. -/
theorem C4_witness :
    cmd_promote (dbPair "owner" "member") 1 100 (some "administrator") 200 "moderator"
      = promoteTableSpec "owner" "moderator" :=
  C4_theorem "owner" (by decide) "moderator" (by decide)

/-! ### Claim C6 -/

/-- C6 (confirmed): warning a (group, user) pair with no membership row
leaves the whole users table unchanged and reports the target as not in the
database; warning an existing row increments exactly that row by one and
reports the new count, all other rows unchanged. -/
theorem C6_theorem (db : DB) (gid aid tid : Int) (st : Option String) (banOk : Bool)
    (hadmin : check_admin st = true) :
    (dbGet db tid gid = none →
      cmd_warn db gid aid st tid banOk = (db, WarnResult.notInDb))
    ∧ (∀ row : UserRow, dbGet db tid gid = some row →
        warnCount (cmd_warn db gid aid st tid banOk).2 = some (row.warnings + 1)
        ∧ dbGet (cmd_warn db gid aid st tid banOk).1 tid gid
            = some ⟨row.role, row.warnings + 1⟩
        ∧ ∀ uid2 gid2 : Int, (uid2, gid2) ≠ (tid, gid) →
            dbGet (cmd_warn db gid aid st tid banOk).1 uid2 gid2 = dbGet db uid2 gid2) := by
  constructor
  · intro h
    rw [cmd_warn_of_admin db gid aid tid st banOk hadmin]
    rw [dbIncWarn_of_get_none db tid gid h, h]
  · intro row hrow
    have hget : dbGet (dbIncWarn db tid gid) tid gid = some ⟨row.role, row.warnings + 1⟩ := by
      rw [dbGet_dbIncWarn_self, hrow]
      rfl
    refine ⟨?_, ?_, ?_⟩
    · rw [cmd_warn_snd_of_get db gid aid tid st banOk row.role (row.warnings + 1) hadmin hget]
      split <;> rfl
    · rw [cmd_warn_fst db gid aid tid st banOk hadmin]
      exact hget
    · intro uid2 gid2 hne
      rw [cmd_warn_fst db gid aid tid st banOk hadmin]
      exact dbGet_dbIncWarn_other db tid gid uid2 gid2 hne

/-- C6 (witness): warning absent user 999 leaves the sample table unchanged;
warning present user 200 reports count 1 and stores count 1. -/
theorem C6_witness :
    cmd_warn sampleDb 1 100 (some "administrator") 999 true = (sampleDb, WarnResult.notInDb)
    ∧ warnCount (cmd_warn sampleDb 1 100 (some "administrator") 200 true).2 = some 1
    ∧ dbGet (cmd_warn sampleDb 1 100 (some "administrator") 200 true).1 200 1
        = some ⟨"member", 1⟩ :=
  ⟨(C6_theorem sampleDb 1 100 999 (some "administrator") true (by decide)).1 (by decide),
   ((C6_theorem sampleDb 1 100 200 (some "administrator") true (by decide)).2
      ⟨"member", 0⟩ (by decide)).1,
   ((C6_theorem sampleDb 1 100 200 (some "administrator") true (by decide)).2
      ⟨"member", 0⟩ (by decide)).2.1⟩

/-! ### Claim C7 -/

/-- C7 (confirmed): when the incremented count reaches the threshold and the
external ban call fails, the already-stored increment is kept: the stored
count after the failed enforcement equals the post-increment count. -/
theorem C7_theorem (db : DB) (gid aid tid : Int) (st : Option String) (row : UserRow)
    (hadmin : check_admin st = true) (hrow : dbGet db tid gid = some row)
    (hthresh : row.warnings + 1 ≥ 3) :
    (cmd_warn db gid aid st tid false).2 = WarnResult.warned (row.warnings + 1) true false
    ∧ dbGet (cmd_warn db gid aid st tid false).1 tid gid
        = some ⟨row.role, row.warnings + 1⟩ := by
  have hget : dbGet (dbIncWarn db tid gid) tid gid = some ⟨row.role, row.warnings + 1⟩ := by
    rw [dbGet_dbIncWarn_self, hrow]
    rfl
  constructor
  · rw [cmd_warn_snd_of_get db gid aid tid st false row.role (row.warnings + 1) hadmin hget]
    rw [if_pos hthresh]
  · rw [cmd_warn_fst db gid aid tid st false hadmin]
    exact hget

/-- C7 (witness): the target with two stored warnings is warned, the ban
attempt fails, and the stored count is the post-increment 3. -/
theorem C7_witness :
    (cmd_warn dbWarned 1 100 (some "administrator") 200 false).2
        = WarnResult.warned 3 true false
    ∧ dbGet (cmd_warn dbWarned 1 100 (some "administrator") 200 false).1 200 1
        = some ⟨"member", 3⟩ :=
  C7_theorem dbWarned 1 100 200 (some "administrator") ⟨"member", 2⟩
    (by decide) (by decide) (by decide)

/-! ### Claim C2 -/

theorem warnSeq_get (db : DB) (gid aid : Int) (st : Option String) (tid : Int)
    (banOk : Bool) (row : UserRow) (hadmin : check_admin st = true)
    (hrow : dbGet db tid gid = some row) :
    ∀ n : Nat, dbGet (warnSeq db gid aid st tid banOk n) tid gid
      = some ⟨row.role, row.warnings + n⟩ := by
  intro n
  induction n with
  | zero => simpa using hrow
  | succ n ih =>
      show dbGet (cmd_warn (warnSeq db gid aid st tid banOk n) gid aid st tid banOk).1 tid gid
        = some ⟨row.role, row.warnings + (n + 1)⟩
      rw [cmd_warn_fst _ gid aid tid st banOk hadmin, dbGet_dbIncWarn_self, ih]
      rfl

/-- C2 (counterexample): for a fresh membership warned sequentially, the
claim says the escalation fires only at count 3 and not at count 4; the code
attempts the auto-ban whenever the count is at least 3, so the third and the
fourth sequential warning both escalate. -/
theorem C2_counterexample :
    escalatedAt (warnResultAt sampleDb 1 100 (some "administrator") 200 true 3) = true
    ∧ escalatedAt (warnResultAt sampleDb 1 100 (some "administrator") 200 true 4) = true := by
  decide

/-- C2 (amended): for a fresh membership (stored count 0) warned
sequentially by an actor passing the admin gate, the k-th warning reports
count k and escalates (attempts the auto-ban) exactly when k is at least 3:
never at counts 1 and 2, first at count 3, and again at every later count. -/
theorem C2_theorem (db : DB) (gid aid tid : Int) (st : Option String) (banOk : Bool)
    (row : UserRow) (hadmin : check_admin st = true)
    (hrow : dbGet db tid gid = some row) (hfresh : row.warnings = 0)
    (k : Nat) (hk : 1 ≤ k) :
    warnCount (warnResultAt db gid aid st tid banOk k) = some k
    ∧ (escalatedAt (warnResultAt db gid aid st tid banOk k) = true ↔ 3 ≤ k) := by
  obtain ⟨n, rfl⟩ : ∃ n, k = n + 1 := ⟨k - 1, by omega⟩
  unfold warnResultAt
  simp only [Nat.add_sub_cancel]
  have hseq := warnSeq_get db gid aid st tid banOk row hadmin hrow n
  have hget : dbGet (dbIncWarn (warnSeq db gid aid st tid banOk n) tid gid) tid gid
      = some ⟨row.role, n + 1⟩ := by
    rw [dbGet_dbIncWarn_self, hseq]
    simp [hfresh]
  rw [cmd_warn_snd_of_get _ gid aid tid st banOk row.role (n + 1) hadmin hget]
  by_cases hc : n + 1 ≥ 3
  · rw [if_pos hc]
    exact ⟨rfl, iff_of_true rfl hc⟩
  · rw [if_neg hc]
    exact ⟨rfl, iff_of_false Bool.false_ne_true hc⟩

/-- C2 (witness): the amended statement at the sample table and k equal 3. -/
theorem C2_witness :
    warnCount (warnResultAt sampleDb 1 100 (some "administrator") 200 true 3) = some 3
    ∧ (escalatedAt (warnResultAt sampleDb 1 100 (some "administrator") 200 true 3) = true
        ↔ 3 ≤ 3) :=
  C2_theorem sampleDb 1 100 200 (some "administrator") true ⟨"member", 0⟩
    (by decide) (by decide) (by decide) 3 (by decide)

/-! ### Claim C10 -/

/-- C10 (confirmed): demoting a target whose stored role is restricted
(priority 0), by an actor whose resolved role has strictly positive
priority, passes the rank check and stores role member (priority 1): the
demotion raises the restricted target by one privilege level. -/
theorem C10_theorem (db : DB) (gid aid tid : Int) (st : Option String) (w : Nat)
    (hadmin : check_admin st = true)
    (htarget : dbGet db tid gid = some ⟨"restricted", w⟩)
    (hactor : 0 < get_role_priority (get_user_role db gid aid st)) :
    (cmd_demote db gid aid st tid).2 = DemoteResult.demoted "member"
    ∧ dbGet (cmd_demote db gid aid st tid).1 tid gid = some ⟨"member", w⟩
    ∧ get_role_priority "member" > get_role_priority "restricted" := by
  rw [cmd_demote_of_admin db gid aid tid st ⟨"restricted", w⟩ hadmin htarget]
  have hrole : (UserRow.mk "restricted" w).role = "restricted" := rfl
  rw [hrole]
  have hgp : get_role_priority "restricted" = 0 := by decide
  rw [hgp]
  rw [if_neg (by omega)]
  have hd : demote_role_of_priority (0 - 1) = "member" := by decide
  rw [hd]
  refine ⟨rfl, ?_, by decide⟩
  rw [dbGet_dbSetRole_self, htarget]
  rfl

/-- C10 (witness): a moderator actor demoting the restricted target 200 in
the concrete table stores role member with the warnings kept. -/
theorem C10_witness :
    (cmd_demote dbDemote 1 100 (some "administrator") 200).2 = DemoteResult.demoted "member"
    ∧ dbGet (cmd_demote dbDemote 1 100 (some "administrator") 200).1 200 1
        = some ⟨"member", 2⟩
    ∧ get_role_priority "member" > get_role_priority "restricted" :=
  C10_theorem dbDemote 1 100 200 (some "administrator") 2
    (by decide) (by decide) (by decide)

end GyfBot
